import Mathlib

set_option maxRecDepth 8000

/-!
Shallow embedding of the scraping / preprocessing pipeline of the
Test-Store-Data-Analysis repository.

The embedding covers:
* `src/components/data_preprocessor.py` — `DataPreprocessor.clean_data` and
  `DataPreprocessor.preprocess_dataset` (the Normalizer);
* `src/components/link_extraction.py` — `ProductLinkExtraction.get_all_product_links`
  (the pagination walker) and the per-page link writes of `get_item_urls`;
* `src/components/product_scraper.py` — `ProductInfoScraper.get_product_details`
  (per-product field extraction);
* the durable append log `write_to_csv` (lives in `src/utils/basic_utils.py`,
  which is not among the provided sources; modelled from the spec).

DataFrames are modelled as lists of records, HTML documents as records of the
selector result lists the code queries, and files as optional lists of rows
(`none` = the file does not exist).
-/

/-- One raw scraped product record: the dataclass `ProductInfo` of
`src/constants.py`, field for field.  `additional_info` holds the parsed
key/value mapping (in the CSV it is a text-encoded dict that `clean_data`
re-parses with `json.loads`; the records here carry the parsed form, so the
json round-trip is outside the model). -/
structure ProductInfo where
  title : String
  price : String
  in_stocks : String
  sku : String
  category : String
  description : String
  product_image_link : String
  additional_info : List (String × String)
  product_link : String
  scrape_ts : String
deriving DecidableEq

/-- Fuel-driven literal substring replacement on character lists.  This is the
semantics of `str.replace(pat, rep)` (pandas `Series.str.replace` with a
literal, non-regex pattern): scan left to right, replace each non-overlapping
occurrence of `pat` by `rep`.  Fuel equal to the list length suffices for a
non-empty pattern; the fuel formulation keeps the recursion structural so that
the kernel can evaluate it. -/
def replaceFuel (pat rep : List Char) : Nat → List Char → List Char
  | _, [] => []
  | 0, l => l
  | Nat.succ n, c :: cs =>
    if List.isPrefixOf pat (c :: cs) then
      rep ++ replaceFuel pat rep n (List.drop (List.length pat) (c :: cs))
    else
      c :: replaceFuel pat rep n cs

/-- Literal substring replacement on strings (an empty pattern replaces
nothing, as in pandas for the patterns used by `clean_data`). -/
def strReplace (s pat rep : String) : String :=
  if List.isEmpty pat.data then s
  else String.mk (replaceFuel pat.data rep.data (List.length s.data) s.data)

/-- ASCII lower-casing of a string, written over the character list so that
the kernel can evaluate it (models `str.lower()` on the ASCII attribute
labels of the additional-information table). -/
def lowerStr (s : String) : String :=
  String.mk (List.map Char.toLower s.data)

/-- The text-replacement step of `clean_data` (data_preprocessor.py lines
52-54): strip the leading pound glyph from `price`, the trailing
`" in stock"` phrase from `in_stocks`, and turn pipes into spaces in
`category`. -/
def stripClean (r : ProductInfo) : ProductInfo :=
  { r with
    price := strReplace r.price ("£") ("")
    in_stocks := strReplace r.in_stocks (" in stock") ("")
    category := strReplace r.category ("|") (" ") }

/-- The sentinel sku filtered out by `clean_data` line 49. -/
def sentinelSku : String := "test-product"

/-- The rows that survive the sentinel filter (line 49), with the
text replacements of lines 52-54 applied. -/
def survivors (raw : List ProductInfo) : List ProductInfo :=
  (raw.filter (fun r => r.sku != sentinelSku)).map stripClean

/-- One row of the attribute-expansion frame `info_df` (lines 63-70): the
record's `additional_info` dict with the record's own sku stored under the
key `"sku"` (line 67), and all attribute keys lower-cased (the column
renaming of line 71). -/
structure InfoEntry where
  attrs : List (String × String)
  sku : String
deriving DecidableEq

/-- Build the attribute-expansion entry for one surviving record
(lines 63-70 build exactly one dict per row of the filtered frame).  A
literal `"sku"` attribute key is not an attribute column: the dict
assignment of line 67 silently overwrites its value with the row's own sku,
so it coincides with the `sku` field here. -/
def mkInfoEntry (r : ProductInfo) : InfoEntry :=
  { attrs := (r.additional_info.filter (fun kv => kv.fst != ("sku"))).map
      (fun kv => (lowerStr kv.fst, kv.snd))
  , sku := r.sku }

/-- Look up a lower-cased attribute column in an expansion entry; `none`
models the NaN produced by `pd.DataFrame`/`reindex` for an absent column. -/
def attrVal (e : InfoEntry) (name : String) : Option String :=
  (e.attrs.find? (fun kv => kv.fst == name)).map (fun kv => kv.snd)

/-- One row of the final cleaned frame, i.e. the `rearranged_col_list`
projection of lines 74-80, in column order.  `price_in_pounds` and
`in_stocks` keep their (validated) textual representation: the `astype`
step of lines 57-60 is modelled as validation, since no property proved
here depends on the numeric value, only on conversion failure.  The eight
attribute columns are `Option String` because a sku whose expansion lacks
the attribute gets NaN. -/
structure CleanRecord where
  sku : String
  title : String
  price_in_pounds : String
  category : String
  description : String
  in_stocks : String
  product_image_link : String
  size : Option String
  color : Option String
  activity : Option String
  gender : Option String
  material : Option String
  pattern : Option String
  strap : Option String
  style : Option String
  product_link : String
  scrape_ts : String
deriving DecidableEq

/-- One row of the merged frame of lines 83-87: base fields from the
(filtered, replaced, typed) record, attribute columns from its expansion
entry, `price` renamed to `price_in_pounds`, `additional_info` dropped,
columns reindexed to the fixed list. -/
def mkCleanRec (r : ProductInfo) (e : InfoEntry) : CleanRecord :=
  { sku := r.sku
  , title := r.title
  , price_in_pounds := r.price
  , category := r.category
  , description := r.description
  , in_stocks := r.in_stocks
  , product_image_link := r.product_image_link
  , size := attrVal e ("size")
  , color := attrVal e ("color")
  , activity := attrVal e ("activity")
  , gender := attrVal e ("gender")
  , material := attrVal e ("material")
  , pattern := attrVal e ("pattern")
  , strap := attrVal e ("strap")
  , style := attrVal e ("style")
  , product_link := r.product_link
  , scrape_ts := r.scrape_ts }

/-- `info_df` of line 70: one expansion entry per surviving record, in row
order. -/
def infoListOf (raw : List ProductInfo) : List InfoEntry :=
  (survivors raw).map mkInfoEntry

/-- The inner merge on `sku` of line 84, in pandas row order for an inner
join: left rows in order, and for each left row its key-matches from the
right frame in their order. -/
def mergedOf (raw : List ProductInfo) : List CleanRecord :=
  (survivors raw).flatMap
    (fun r => ((infoListOf raw).filter (fun e => e.sku == r.sku)).map
      (fun e => mkCleanRec r e))

/-- `drop_duplicates(subset=["sku"])` with the default `keep="first"`
(line 88): keep a row iff its sku has not been seen earlier. -/
def dedupBySkuAux (seen : List String) : List CleanRecord → List CleanRecord
  | [] => []
  | r :: rs =>
    if r.sku ∈ seen then dedupBySkuAux seen rs
    else r :: dedupBySkuAux (r.sku :: seen) rs

/-- Deduplicate by sku keeping the first occurrence (line 88;
`reset_index(drop=True)` of line 89 is the identity on the list model). -/
def dedupBySku (l : List CleanRecord) : List CleanRecord :=
  dedupBySkuAux [] l

/-- The columns of the base frame at the line-84 merge, minus the merge key
`sku`: the labels pandas suffixes with `_x`/`_y` when an attribute column
of `info_df` collides with them. -/
def leftMergeCols : List String :=
  ["title", "price", "in_stocks", "category", "description",
   "product_image_link", "additional_info", "product_link", "scrape_ts"]

/-- The lower-cased attribute column labels of `info_df` (after the column
renaming of line 71), excluding the `sku` column: every distinct
attribute-key spelling occurring in the batch other than a literal "sku"
key (which the dict assignment of line 67 overwrites with the row's own
sku).  Distinct spellings stay distinct entries here, so a collision of
their lower-casings shows up as a duplicate. -/
def attrColumns (l : List ProductInfo) : List String :=
  ((l.flatMap (fun r => r.additional_info.map (fun kv => kv.fst))).dedup.filter
    (fun k => k != ("sku"))).map lowerStr

/-- All `info_df` column labels after lower-casing: the inserted `sku`
column plus the attribute columns. -/
def infoColumns (l : List ProductInfo) : List String :=
  ("sku") :: attrColumns l

/-- The structural conditions under which the merge / drop / rename /
reindex chain of lines 83-89 completes, traced on pandas 2.x semantics
(the semantics the spec's own category scenario pins down):
* the lowered `info_df` labels must be pairwise distinct — a key such as
  "SKU" collides with the inserted `sku` column and makes the merge key
  label non-unique (the merge raises), and two spellings such as "Size" and
  "SIZE" leave duplicate labels that the reindex of line 87 rejects;
* no attribute column may be named `additional_info` — it would collide
  with the base column and be suffixed away at the merge, so the
  `drop(columns="additional_info")` of line 85 raises KeyError;
* no attribute column may be named `price_in_pounds` — the rename of
  line 86 would then duplicate that label and the reindex raises;
* an attribute column colliding with another base column is merely suffixed
  `_x`/`_y` and the run completes (the reindex then silently yields a NaN
  column for the base name) — unless the suffixed name itself is also an
  attribute column, in which case the merge raises on the duplicate it
  would create. -/
def mergeOk (l : List ProductInfo) : Bool :=
  ((infoColumns l).dedup == infoColumns l)
  && !((attrColumns l).contains ("additional_info"))
  && !((attrColumns l).contains ("price_in_pounds"))
  && (attrColumns l).all (fun k =>
      !(leftMergeCols.contains k)
      || (!((attrColumns l).contains (k ++ ("_x")))
          && !((attrColumns l).contains (k ++ ("_y")))))

/-- The `astype` step of lines 57-60, as validation of one (already
replaced) row: `price` and `in_stocks` must parse as float32, `scrape_ts`
as a timestamp.  The accepted grammars are pandas library behaviour, so the
validators are parameters of the model. -/
def rowOk (vF vTs : String → Bool) (r : ProductInfo) : Bool :=
  vF r.price && vF r.in_stocks && vTs r.scrape_ts

/-- `DataPreprocessor.clean_data` (lines 35-91): filter the sentinel sku,
apply the text replacements, convert types, expand `additional_info` into
per-sku entries, inner-merge on sku, rename/project, deduplicate by sku
keeping the first occurrence.  The run raises — yielding `none` — exactly
when: the filter leaves no rows, so `info_list` is empty and
`pd.DataFrame([])` is a columnless frame on which the line-84 merge on
`sku` raises KeyError; or a type conversion of lines 57-60 fails; or the
expansion columns break the merge/drop/rename/reindex chain (`mergeOk`). -/
def clean_data (vF vTs : String → Bool) (raw : List ProductInfo) :
    Option (List CleanRecord) :=
  if !(survivors raw).isEmpty
      && (survivors raw).all (rowOk vF vTs)
      && mergeOk (survivors raw)
  then some (dedupBySku (mergedOf raw))
  else none

/-- The state of the processed-data file: `none` when it does not exist. -/
structure FsState where
  processedFile : Option (List CleanRecord)
deriving DecidableEq

/-- `DataPreprocessor.preprocess_dataset` (lines 93-120): read the raw
snapshot, clean it, and only then write the cleaned file.  `clean_data`
raises inside the `try` block before `to_csv` runs, so on failure the
exception is re-raised and the output file is neither created nor modified;
the `Bool` is `true` iff the run completed. -/
def preprocess_dataset (vF vTs : String → Bool) (raw : List ProductInfo)
    (fs : FsState) : FsState × Bool :=
  match clean_data vF vTs raw with
  | some c => ({ processedFile := some c }, true)
  | none => (fs, false)

/-- An HTML node, reduced to what the scraper reads from it: its stripped
text and its `href` attribute. -/
structure Node where
  text : String
  href : String
deriving DecidableEq

/-- One `tr` row of the additional-information table: the optional `th`
label cell text and the optional `td p` value cell text. -/
structure InfoRow where
  th : Option String
  tdp : Option String
deriving DecidableEq

/-- A parsed product page, as the fixed set of selector queries
`get_product_details` performs on it (product_scraper.py lines 98-128);
each field is the node list the corresponding CSS selector returns, in
document order. -/
structure Doc where
  productTitle : List Node
  priceBdi : List Node
  stockP : List Node
  skuSpan : List Node
  categoryTag : List Node
  descriptionP : List Node
  galleryLink : List Node
  additionalRows : List InfoRow
deriving DecidableEq

/-- The `fetch` helper in `"first"` mode (lines 80-84): the stripped text of
the first matching node, or the empty string when no node matches. -/
def fetchFirst (ns : List Node) : String :=
  match ns.head? with
  | some nd => nd.text
  | none => ""

/-- The `fetch` helper in `"link"` mode (lines 85-89): the `href` of the
first matching node, or the empty string when no node matches. -/
def fetchLink (ns : List Node) : String :=
  match ns.head? with
  | some nd => nd.href
  | none => ""

/-- The additional-details dict comprehension (lines 101-108): one entry per
table row, label defaulting to `"-"` when the `th` cell is missing and value
defaulting to `""` when the `td p` cell is missing. -/
def additionalDetails (rows : List InfoRow) : List (String × String) :=
  rows.map (fun row => (row.th.getD ("-"), row.tdp.getD ("")))

/-- `ProductInfoScraper.get_product_details` (lines 54-136), restricted to
record construction: every field goes through `fetch`, whose absent-element
default is the empty string, except `price`, which indexes `[-1]` into the
raw list of price nodes and therefore raises (caught and re-raised as
`CustomException`, modelled as `none`) when no price node is present.  The
`in_stocks` field is guarded by its own `"f_obj"` presence check
(lines 114-115). -/
def get_product_details (doc : Doc) (product_url scrape_ts : String) :
    Option ProductInfo :=
  match doc.priceBdi.getLast? with
  | none => none
  | some priceNode =>
    some
      { title := fetchFirst doc.productTitle
      , price := priceNode.text
      , in_stocks := if (doc.stockP.head?).isSome then fetchFirst doc.stockP else ""
      , sku := fetchFirst doc.skuSpan
      , category := fetchFirst doc.categoryTag
      , description := String.intercalate ("\n") (doc.descriptionP.map (fun nd => nd.text))
      , product_image_link := fetchLink doc.galleryLink
      , additional_info := additionalDetails doc.additionalRows
      , product_link := product_url
      , scrape_ts := scrape_ts }

/-- One parsed listing page, as `get_all_product_links` reads it
(link_extraction.py lines 84-133): the product URLs on it and the `href` of
the pagination control of type `"next"`, when present. -/
structure ListingPage where
  itemUrls : List String
  nextUrl : Option String
deriving DecidableEq

/-- One row of the links file (spec §3 ItemLink; the dict written at
lines 89-93). -/
structure ItemLink where
  page_number : Nat
  page_url : String
  product_url : String
deriving DecidableEq

/-- The links `get_item_urls` emits for one page (lines 87-95): one
`ItemLink` per product, tagged with the page's number and URL. -/
def pageLinks (url : String) (n : Nat) (pg : ListingPage) : List ItemLink :=
  pg.itemUrls.map (fun u => { page_number := n, page_url := url, product_url := u })

/-- `ProductLinkExtraction.get_all_product_links` (lines 103-133): fetch and
parse the page (a fetch/parse failure, `site url = none`, aborts the walk),
emit its item links, then follow the `"next"` pagination link with the page
index increased by one, terminating when no such link exists.  The source
recursion has no depth bound; `fuel` makes the possibly-unbounded recursion
a total function, with `none` also standing for fuel exhaustion.  The result
pairs the list of (page URL, page index) fetches performed with the emitted
links. -/
def get_all_product_links (site : String → Option ListingPage) :
    Nat → String → Nat → Option (List (String × Nat) × List ItemLink)
  | 0, _, _ => none
  | Nat.succ fuel, url, n =>
    match site url with
    | none => none
    | some pg =>
      match pg.nextUrl with
      | none => some ([(url, n)], pageLinks url n pg)
      | some nxt =>
        match get_all_product_links site fuel nxt (n + 1) with
        | none => none
        | some (vs, ls) => some ((url, n) :: vs, pageLinks url n pg ++ ls)

/-- A finite pagination chain: each listed (URL, page) pair is what `site`
returns for that URL, every page but the last names the next URL in the
chain as its `"next"` link, and the last page has none. -/
def isChain (site : String → Option ListingPage) :
    List (String × ListingPage) → Prop
  | [] => True
  | [(u, p)] => site u = some p ∧ p.nextUrl = none
  | (u, p) :: (u2, p2) :: rest =>
      site u = some p ∧ p.nextUrl = some u2 ∧ isChain site ((u2, p2) :: rest)

/-- The fetches a complete walk of the chain performs, starting at page
index `n`: each page's URL with consecutive indices. -/
def expectedVisits : List (String × ListingPage) → Nat → List (String × Nat)
  | [], _ => []
  | (u, _) :: rest, n => (u, n) :: expectedVisits rest (n + 1)

/-- The links a complete walk of the chain emits, starting at page index
`n`: each page's links in page order. -/
def expectedLinks : List (String × ListingPage) → Nat → List ItemLink
  | [], _ => []
  | (u, p) :: rest, n => pageLinks u n p ++ expectedLinks rest (n + 1)

/-- Modelled from the spec: `write_to_csv` (src/utils/basic_utils.py, not
among the provided sources) appends one record as one row to the target
file, creating the file (and its header row, which the row-count model does
not track) on first write and never rewriting existing rows (spec §2
RecordWriter and §6 durable append log).  `none` is an absent file. -/
def write_to_csv (file : Option (List ItemLink)) (r : ItemLink) :
    Option (List ItemLink) :=
  match file with
  | none => some [r]
  | some rows => some (rows ++ [r])

/-- The per-product write loop of `get_item_urls` (lines 87-95): append each
link of the batch in order. -/
def writeLinkBatch (file : Option (List ItemLink)) (batch : List ItemLink) :
    Option (List ItemLink) :=
  batch.foldl write_to_csv file

/-- The constructor-time clear of `ProductLinkExtraction.__init__`
(lines 52-58): when the clear flag is set and the links file exists, it is
truncated to empty before the run; a non-existing file is left absent. -/
def clearIfRequested (clear : Bool) (file : Option (List ItemLink)) :
    Option (List ItemLink) :=
  if clear then
    match file with
    | some _ => some []
    | none => none
  else file

/-- Row count of the links file; an absent file has no rows. -/
def fileRowCount : Option (List ItemLink) → Nat
  | none => 0
  | some rows => rows.length

/-- A validator that accepts every value (a batch on which every `astype`
conversion succeeds). -/
def vAll : String → Bool := fun _ => true

/-- A validator that rejects every value (a batch on which the `astype`
conversion fails). -/
def vNone : String → Bool := fun _ => false

/-- A surviving record alongside a sentinel record. -/
def rB : ProductInfo :=
  { title := "Keep", price := "£3.00", in_stocks := "1 in stock", sku := "beta"
  , category := "B", description := "d", product_image_link := "i"
  , additional_info := [], product_link := "l", scrape_ts := "t" }

/-- A batch mixing a sentinel record with a regular one. -/
def sentinelMixBatch : List ProductInfo :=
  [ { title := "Test", price := "0", in_stocks := "0", sku := "test-product"
    , category := "C", description := "d", product_image_link := "i"
    , additional_info := [], product_link := "l", scrape_ts := "t" }
  , rB ]

/-- A record whose category field is the spec scenario value. -/
def shoesRec : ProductInfo :=
  { title := "Shoe", price := "£9.99", in_stocks := "2 in stock", sku := "shoe-1"
  , category := "Shoes|Running|Men", description := "d", product_image_link := "i"
  , additional_info := [], product_link := "l", scrape_ts := "t" }

/-- A record used by the failing-conversion instance. -/
def badBatch : List ProductInfo :=
  [ { title := "Bad", price := "abc", in_stocks := "many", sku := "gamma"
    , category := "C", description := "d", product_image_link := "i"
    , additional_info := [], product_link := "l", scrape_ts := "not-a-date" } ]

/-- A pre-existing processed file, used to observe that a failing run leaves
it untouched. -/
def fsPrev : FsState :=
  { processedFile := some [mkCleanRec (stripClean rB) (mkInfoEntry (stripClean rB))] }

/-- A record with attribute entries, for the expansion-completeness instance. -/
def rC : ProductInfo :=
  { title := "Info", price := "£4.00", in_stocks := "3 in stock", sku := "delta"
  , category := "D", description := "d", product_image_link := "i"
  , additional_info := [(("Size"), ("M")), (("Color"), ("Red"))]
  , product_link := "l", scrape_ts := "t" }

/-- A batch with one attribute-bearing record. -/
def infoBatch : List ProductInfo := [rC]

/-- A product page with a single price element and every other element
absent. -/
def docNoTitle : Doc :=
  { productTitle := [], priceBdi := [{ text := "£5.00", href := "" }]
  , stockP := [], skuSpan := [], categoryTag := [], descriptionP := []
  , galleryLink := [], additionalRows := [] }

/-- A product page with no price element at all. -/
def docNoPrice : Doc :=
  { productTitle := [{ text := "Titled", href := "" }], priceBdi := []
  , stockP := [], skuSpan := [{ text := "sku-1", href := "" }]
  , categoryTag := [], descriptionP := [], galleryLink := []
  , additionalRows := [] }

/-- A product page on which the price element occurs twice (struck-through
old price first, current price last). -/
def docTwoPrices : Doc :=
  { productTitle := [{ text := "Twice", href := "" }]
  , priceBdi := [{ text := "£20.00", href := "" }, { text := "£15.00", href := "" }]
  , stockP := [{ text := "5 in stock", href := "" }]
  , skuSpan := [{ text := "sku-2", href := "" }]
  , categoryTag := [], descriptionP := [], galleryLink := []
  , additionalRows := [] }

/-- First listing page of a two-page chain. -/
def pg1 : ListingPage := { itemUrls := ["a1", "a2"], nextUrl := some ("p2") }

/-- Last listing page of a two-page chain (no next marker). -/
def pg2 : ListingPage := { itemUrls := ["b1"], nextUrl := none }

/-- A site consisting of the two chained listing pages. -/
def site0 : String → Option ListingPage := fun url =>
  if url = ("p1") then some pg1 else if url = ("p2") then some pg2 else none

theorem sku_stripClean (r : ProductInfo) : (stripClean r).sku = r.sku := rfl

theorem sku_mkInfoEntry (r : ProductInfo) : (mkInfoEntry r).sku = r.sku := rfl

theorem sku_mkCleanRec (r : ProductInfo) (e : InfoEntry) :
    (mkCleanRec r e).sku = r.sku := rfl

theorem clean_data_eq_some {vF vTs : String → Bool} {raw : List ProductInfo}
    {out : List CleanRecord} (h : clean_data vF vTs raw = some out) :
    out = dedupBySku (mergedOf raw) := by
  unfold clean_data at h
  split at h
  · exact (Option.some.inj h).symm
  · cases h

theorem mem_dedupBySkuAux {x : CleanRecord} :
    ∀ (l : List CleanRecord) (seen : List String),
      x ∈ dedupBySkuAux seen l → x ∈ l := by
  intro l
  induction l with
  | nil => intro seen h; simp [dedupBySkuAux] at h
  | cons r rs ih =>
    intro seen h
    by_cases hmem : r.sku ∈ seen
    · simp only [dedupBySkuAux, if_pos hmem] at h
      exact List.mem_cons_of_mem _ (ih _ h)
    · simp only [dedupBySkuAux, if_neg hmem, List.mem_cons] at h
      rcases h with h | h
      · exact h ▸ List.mem_cons_self _ _
      · exact List.mem_cons_of_mem _ (ih _ h)

/-- Spec-side description of the category cleaning (spec §4.3 step 2 and §8:
"replace a pipe character with a space"): a character map that turns each
pipe into a single space and leaves every other character unchanged. -/
def pipeToSpace (s : String) : String :=
  String.mk (s.data.map (fun c => if c = '|' then ' ' else c))

theorem replaceFuel_single (a b : Char) :
    ∀ (n : Nat) (l : List Char), List.length l ≤ n →
      replaceFuel [a] [b] n l = List.map (fun c => if c = a then b else c) l := by
  intro n
  induction n with
  | zero =>
    intro l hl
    cases l with
    | nil => rfl
    | cons c cs => simp at hl
  | succ n ih =>
    intro l hl
    cases l with
    | nil => rfl
    | cons c cs =>
      have hcs : List.length cs ≤ n := by
        simpa using Nat.le_of_succ_le_succ hl
      by_cases hc : c = a
      · subst hc
        have hp : List.isPrefixOf [c] (c :: cs) = true := by
          simp [List.isPrefixOf]
        simp [replaceFuel, hp, ih cs hcs]
      · have hp : List.isPrefixOf [a] (c :: cs) = false := by
          simp [List.isPrefixOf]
          exact fun h => hc h.symm
        simp [replaceFuel, hp, hc, ih cs hcs]

theorem strReplace_pipe (s : String) :
    strReplace s ("|") (" ") = pipeToSpace s := by
  have h1 : ("|" : String).data = ['|'] := rfl
  have h2 : ((" ") : String).data = [' '] := rfl
  unfold strReplace pipeToSpace
  rw [h1, h2]
  rw [if_neg (by simp : ¬ (List.isEmpty ['|'] = true))]
  rw [replaceFuel_single ('|') (' ') (List.length s.data) s.data (Nat.le_refl _)]

theorem expectedVisits_snd :
    ∀ (chain : List (String × ListingPage)) (n : Nat),
      (expectedVisits chain n).map Prod.snd = List.range' n chain.length := by
  intro chain
  induction chain with
  | nil => intro n; rfl
  | cons up rest ih =>
    intro n
    obtain ⟨u, p⟩ := up
    simp [expectedVisits, List.range'_succ, ih]

theorem expectedVisits_fst :
    ∀ (chain : List (String × ListingPage)) (n : Nat),
      (expectedVisits chain n).map Prod.fst = chain.map Prod.fst := by
  intro chain
  induction chain with
  | nil => intro n; rfl
  | cons up rest ih =>
    intro n
    obtain ⟨u, p⟩ := up
    simp [expectedVisits, ih]

theorem walk_chain (site : String → Option ListingPage) :
    ∀ (chain : List (String × ListingPage)) (u : String) (p : ListingPage)
      (fuel n : Nat), isChain site ((u, p) :: chain) →
      ((u, p) :: chain).length ≤ fuel →
      get_all_product_links site fuel u n =
        some (expectedVisits ((u, p) :: chain) n, expectedLinks ((u, p) :: chain) n) := by
  intro chain
  induction chain with
  | nil =>
    intro u p fuel n hch hf
    obtain ⟨hu, hnext⟩ := hch
    cases fuel with
    | zero => simp at hf
    | succ fuel =>
      simp [get_all_product_links, hu, hnext, expectedVisits, expectedLinks]
  | cons up rest ih =>
    intro u p fuel n hch hf
    obtain ⟨u2, p2⟩ := up
    obtain ⟨hu, hnext, hch2⟩ := hch
    cases fuel with
    | zero => simp at hf
    | succ fuel =>
      have hrec := ih u2 p2 fuel (n + 1) hch2
        (by simpa using Nat.le_of_succ_le_succ hf)
      simp [get_all_product_links, hu, hnext, hrec, expectedVisits, expectedLinks]

theorem writeLinkBatch_count :
    ∀ (batch : List ItemLink) (file : Option (List ItemLink)),
      fileRowCount (writeLinkBatch file batch) = fileRowCount file + batch.length := by
  intro batch
  induction batch with
  | nil => intro file; simp [writeLinkBatch, fileRowCount]
  | cons r rs ih =>
    intro file
    have hstep : writeLinkBatch file (r :: rs) = writeLinkBatch (write_to_csv file r) rs := rfl
    rw [hstep, ih]
    cases file <;> simp [write_to_csv, fileRowCount] <;> omega

/-- Claim C3: for every raw-record batch and every position in it, a record
whose sku equals the sentinel string "test-product" never appears in the
Normalizer's cleaned output: every row of a successful `clean_data` run has
a non-sentinel sku. -/
theorem clean_data_sentinel_excluded
    (vF vTs : String → Bool) (raw : List ProductInfo) (out : List CleanRecord)
    (hout : clean_data vF vTs raw = some out) :
    ∀ x ∈ out, x.sku ≠ sentinelSku := by
  have hout' := clean_data_eq_some hout
  subst hout'
  intro x hx
  have hx' : x ∈ mergedOf raw := mem_dedupBySkuAux _ _ hx
  unfold mergedOf at hx'
  rw [List.mem_flatMap] at hx'
  obtain ⟨r, hr, hxr⟩ := hx'
  rw [List.mem_map] at hxr
  obtain ⟨e, he, hxe⟩ := hxr
  unfold survivors at hr
  rw [List.mem_map] at hr
  obtain ⟨r', hr', hr'eq⟩ := hr
  rw [List.mem_filter] at hr'
  have hsku : x.sku = r'.sku := by
    rw [← hxe, sku_mkCleanRec, ← hr'eq, sku_stripClean]
  rw [hsku]
  simpa [bne_iff_ne] using hr'.2

/-- Claim C3 witness: in a concrete batch mixing a sentinel record with a
regular one, the surviving output row's sku is not the sentinel. -/
theorem clean_data_sentinel_excluded_witness :
    (mkCleanRec (stripClean rB) (mkInfoEntry (stripClean rB))).sku ≠ sentinelSku :=
  clean_data_sentinel_excluded vAll vAll sentinelMixBatch
    (dedupBySku (mergedOf sentinelMixBatch)) (by decide)
    (mkCleanRec (stripClean rB) (mkInfoEntry (stripClean rB))) (by decide)

/-- Claim C4: the cleaning step replaces each pipe character in the category
field with a single space and changes nothing else in that field (the
character map `pipeToSpace`); in particular the raw category
"Shoes|Running|Men" cleans to "Shoes Running Men". -/
theorem clean_data_category_pipe_to_space :
    (∀ r : ProductInfo, (stripClean r).category = pipeToSpace r.category) ∧
    (stripClean shoesRec).category = ("Shoes Running Men") := by
  constructor
  · intro r
    exact strReplace_pipe r.category
  · decide

/-- Claim C7: whenever any cleaning step fails (`clean_data` raises instead
of returning a frame), `preprocess_dataset` reports failure and leaves the
processed-data file exactly as it was: not created when absent, unmodified
when present. -/
theorem preprocess_aborts_without_write
    (vF vTs : String → Bool) (raw : List ProductInfo) (fs : FsState)
    (hfail : clean_data vF vTs raw = none) :
    preprocess_dataset vF vTs raw fs = (fs, false) := by
  simp [preprocess_dataset, hfail]

/-- Claim C7 witness: a batch whose numeric fields fail conversion leaves a
pre-existing processed file untouched and reports failure. -/
theorem preprocess_aborts_without_write_witness :
    preprocess_dataset vNone vAll badBatch fsPrev = (fsPrev, false) :=
  preprocess_aborts_without_write vNone vAll badBatch fsPrev (by decide)

/-- Claim C8: the Normalizer is a deterministic pure function of the raw
snapshot: running `preprocess_dataset` a second time on the same snapshot
reproduces exactly the state and status of the first run, so two runs on
the same snapshot yield identical cleaned output. -/
theorem preprocess_rerun_idempotent
    (vF vTs : String → Bool) (raw : List ProductInfo) (fs : FsState) :
    preprocess_dataset vF vTs raw (preprocess_dataset vF vTs raw fs).1 =
      preprocess_dataset vF vTs raw fs := by
  cases hc : clean_data vF vTs raw <;> simp [preprocess_dataset, hc]

/-- Claim C9: writing a batch of item links appends, never overwrites: the
final row count is the pre-existing count plus the batch size, except when
the clear flag is set, in which case the file is truncated first and the
final count is exactly the batch size. -/
theorem links_file_append_count (clear : Bool) (file : Option (List ItemLink))
    (batch : List ItemLink) :
    fileRowCount (writeLinkBatch (clearIfRequested clear file) batch) =
      (if clear then 0 else fileRowCount file) + batch.length := by
  rw [writeLinkBatch_count]
  congr 1
  cases clear <;> cases file <;> simp [clearIfRequested, fileRowCount]

/-- Claim C10: the attribute-expansion step builds exactly one expansion
entry per surviving record, keyed by that record's own sku, so the inner
join on sku never drops a surviving record: each one appears (joined with
its own expansion entry) in the merged result before deduplication. -/
theorem info_expansion_complete
    (vF vTs : String → Bool) (raw : List ProductInfo) (out : List CleanRecord)
    (_hout : clean_data vF vTs raw = some out) :
    (infoListOf raw).length = (survivors raw).length ∧
    (∀ i : Nat, ((infoListOf raw)[i]?).map InfoEntry.sku =
      ((survivors raw)[i]?).map ProductInfo.sku) ∧
    (∀ r ∈ survivors raw, mkCleanRec r (mkInfoEntry r) ∈ mergedOf raw) := by
  refine ⟨by simp [infoListOf], ?_, ?_⟩
  · intro i
    simp [infoListOf, List.getElem?_map, sku_mkInfoEntry]
    cases (survivors raw)[i]? <;> simp [sku_mkInfoEntry]
  · intro r hr
    unfold mergedOf
    rw [List.mem_flatMap]
    refine ⟨r, hr, ?_⟩
    rw [List.mem_map]
    refine ⟨mkInfoEntry r, ?_, rfl⟩
    rw [List.mem_filter]
    constructor
    · unfold infoListOf
      exact List.mem_map.mpr ⟨r, hr, rfl⟩
    · simp [sku_mkInfoEntry]

/-- Claim C10 witness: in a concrete one-record batch the surviving record's
join with its own expansion entry is present in the merged result. -/
theorem info_expansion_complete_witness :
    mkCleanRec (stripClean rC) (mkInfoEntry (stripClean rC)) ∈ mergedOf infoBatch :=
  (info_expansion_complete vAll vAll infoBatch (dedupBySku (mergedOf infoBatch))
    (by decide)).2.2 (stripClean rC) (by decide)

/-- Claim C2: for every finite pagination chain of length L (each page
fetched and parsed successfully, pages 1..L-1 carrying a next marker and
page L none), the traversal starting at the first page's URL with index 1
fetches exactly the chain's pages — consecutive 1-based indices 1..L, in
chain order — emits exactly the chain's item links, and terminates there
(the result is reached with any fuel bound of at least L, so no further
fetch happens after the page lacking the next marker). -/
theorem pagination_walk_chain (site : String → Option ListingPage)
    (chain : List (String × ListingPage)) (u : String) (p : ListingPage)
    (fuel : Nat)
    (hch : isChain site ((u, p) :: chain))
    (hf : ((u, p) :: chain).length ≤ fuel) :
    get_all_product_links site fuel u 1 =
      some (expectedVisits ((u, p) :: chain) 1, expectedLinks ((u, p) :: chain) 1) ∧
    (expectedVisits ((u, p) :: chain) 1).map Prod.snd =
      List.range' 1 (((u, p) :: chain).length) ∧
    (expectedVisits ((u, p) :: chain) 1).map Prod.fst =
      ((u, p) :: chain).map Prod.fst :=
  ⟨walk_chain site chain u p fuel 1 hch hf,
   expectedVisits_snd ((u, p) :: chain) 1,
   expectedVisits_fst ((u, p) :: chain) 1⟩

/-- Claim C2 witness: a concrete two-page chain is walked with exactly two
fetches, indices 1 and 2, and the two pages' links emitted. -/
theorem pagination_walk_chain_witness :
    get_all_product_links site0 2 ("p1") 1 =
      some (expectedVisits [(("p1"), pg1), (("p2"), pg2)] 1,
            expectedLinks [(("p1"), pg1), (("p2"), pg2)] 1) :=
  (pagination_walk_chain site0 [(("p2"), pg2)] ("p1") pg1 2
    ⟨by decide, by decide, by decide, by decide⟩ (by decide)).1

/-- Claim C5 (counterexample): the claim says the title and sku fields raise
an error when their element is absent; but on a concrete page with no title
element and no sku element (and one price element) `get_product_details`
does not fail — it produces a record whose title and sku are empty
strings. -/
theorem get_product_details_title_absent_counterexample :
    docNoTitle.productTitle = [] ∧ docNoTitle.skuSpan = [] ∧
    get_product_details docNoTitle ("u") ("t") =
      some { title := "", price := "£5.00", in_stocks := "", sku := ""
           , category := "", description := "", product_image_link := ""
           , additional_info := [], product_link := "u", scrape_ts := "t" } := by
  decide

/-- Claim C5 (amended): every field whose element is absent from the page —
including title and sku — yields an empty string in the record rather than
failing it; the only extraction that fails the record is the price, whose
last-occurrence indexing raises exactly when no price element is present. -/
theorem get_product_details_optional_fields (doc : Doc) (u t : String) :
    ((get_product_details doc u t).isSome ↔ doc.priceBdi ≠ []) ∧
    (∀ r : ProductInfo, get_product_details doc u t = some r →
      (doc.productTitle = [] → r.title = "") ∧
      (doc.skuSpan = [] → r.sku = "") ∧
      (doc.stockP = [] → r.in_stocks = "") ∧
      (doc.categoryTag = [] → r.category = "") ∧
      (doc.descriptionP = [] → r.description = "") ∧
      (doc.galleryLink = [] → r.product_image_link = "")) := by
  constructor
  · cases hq : doc.priceBdi.getLast? with
    | none =>
      rw [List.getLast?_eq_none_iff] at hq
      simp [get_product_details, hq]
    | some nd =>
      have hne : doc.priceBdi ≠ [] := by
        intro h
        rw [h] at hq
        cases hq
      simp [get_product_details, hq]
      exact hne
  · intro r hr
    cases hq : doc.priceBdi.getLast? with
    | none => simp [get_product_details, hq] at hr
    | some nd =>
      simp [get_product_details, hq] at hr
      refine ⟨?_, ?_, ?_, ?_, ?_, ?_⟩ <;> intro habs <;>
        (simp [← hr, fetchFirst, fetchLink, habs, additionalDetails]; try rfl)

/-- Claim C5 witness: on the concrete page whose title and sku elements are
absent but whose price element is present, the record is produced (does not
fail). -/
theorem get_product_details_optional_fields_witness :
    (get_product_details docNoTitle ("u") ("t")).isSome = true :=
  ((get_product_details_optional_fields docNoTitle ("u") ("t")).1).mpr (by decide)

/-- Claim C6: on every product page whose displayed price element occurs
more than once, the record is produced and its price is the text of the
last occurrence in document order. -/
theorem get_product_details_price_last (doc : Doc) (u t : String)
    (h2 : 2 ≤ doc.priceBdi.length) :
    (get_product_details doc u t).map (fun r => r.price) =
      (doc.priceBdi.getLast?).map (fun nd => nd.text) ∧
    (get_product_details doc u t).isSome = true := by
  cases hq : doc.priceBdi.getLast? with
  | none =>
    rw [List.getLast?_eq_none_iff] at hq
    rw [hq] at h2
    simp at h2
  | some nd =>
    constructor
    · simp [get_product_details, hq]
    · simp [get_product_details, hq]

/-- Claim C6 witness: on a concrete page with a struck-through price before
the current price, the recorded price is the text of the last price
element. -/
theorem get_product_details_price_last_witness :
    (get_product_details docTwoPrices ("u") ("t")).map (fun r => r.price) =
      (docTwoPrices.priceBdi.getLast?).map (fun nd => nd.text) ∧
    (get_product_details docTwoPrices ("u") ("t")).isSome = true :=
  get_product_details_price_last docTwoPrices ("u") ("t") (by decide)

